import Mathlib

/-!
Verification of the multi-persona session manager (`src/agent/triage.py`,
`src/agent/main.py`).

The Python source is shallowly embedded: chat items, the per-agent chat
contexts, and the shared session state become Lean data; the methods
`BaseAgent._truncate_chat_ctx`, `BaseAgent.on_enter`,
`BaseAgent._transfer_to_agent`, and the module-level image-ingestion
functions `create_image_handler` / `_handle_image` become pure state
transformers.  Bytes are modelled as `Nat` (values 0..255), byte strings as
`List Nat`.
-/

namespace VisionDemo

/-- Role of a chat message (`role=` argument of `add_message`). -/
inductive Role
  | system
  | user
  | assistant
deriving DecidableEq, Repr

/-- One content part of a chat item: plain text or an image data URL
(`ImageContent(image=...)` in the source). -/
inductive ContentPart
  | text (s : String)
  | image (dataUrl : String)
deriving DecidableEq, Repr

/-- Item kind, the `item.type` field tested by `_truncate_chat_ctx`
(`"message"`, `"function_call"`, `"function_call_output"`). -/
inductive ItemType
  | message
  | functionCall
  | functionCallOutput
deriving DecidableEq, Repr

/-- One chat-context item.  `role` is only meaningful when
`type = message`, exactly as in the source, where `_valid_item` tests
`item.type == "message" and item.role == "system"`. -/
structure ChatItem where
  id : String
  type : ItemType
  role : Role
  content : List ContentPart
deriving DecidableEq, Repr

/-- Predicate `_valid_item` from `BaseAgent._truncate_chat_ctx`: an item is dropped
when it is a system message and `keep_system_message` is false, or a
function-call item and `keep_function_call` is false. -/
def valid_item (keepSystemMessage keepFunctionCall : Bool) (i : ChatItem) : Bool :=
  if !keepSystemMessage && i.type == ItemType.message && i.role == Role.system then
    false
  else if !keepFunctionCall &&
      (i.type == ItemType.functionCall || i.type == ItemType.functionCallOutput) then
    false
  else
    true

/-- The backward-scan loop of `_truncate_chat_ctx`:
`for item in reversed(items): if _valid_item(item): new_items.append(item);
if len(new_items) >= keep_last_n_messages: break`.
`l` is the (already reversed) remaining input, `acc` the `new_items`
accumulator.  Note the break test runs after the (possible) append on every
iteration, exactly as in the source. -/
def scanLoop (keepSystemMessage keepFunctionCall : Bool) (n : Nat) :
    List ChatItem → List ChatItem → List ChatItem
  | [], acc => acc
  | i :: rest, acc =>
    let acc' := if valid_item keepSystemMessage keepFunctionCall i then acc ++ [i] else acc
    if n ≤ acc'.length then acc'
    else scanLoop keepSystemMessage keepFunctionCall n rest acc'

/-- The trailing `while new_items and new_items[0].type in [...]:
new_items.pop(0)` loop of `_truncate_chat_ctx`. -/
def dropLeadingFunctionItems : List ChatItem → List ChatItem
  | [] => []
  | i :: rest =>
    if i.type == ItemType.functionCall || i.type == ItemType.functionCallOutput then
      dropLeadingFunctionItems rest
    else
      i :: rest

/-- Method `BaseAgent._truncate_chat_ctx`: scan backward collecting valid items,
restore chronological order (`new_items[::-1]`), then strip the leading run
of function-call items.  Source defaults: `keep_last_n_messages=6`,
`keep_system_message=False`, `keep_function_call=False`. -/
def truncate_chat_ctx (items : List ChatItem) (keepLastN : Nat)
    (keepSystemMessage keepFunctionCall : Bool) : List ChatItem :=
  let newItems :=
    scanLoop keepSystemMessage keepFunctionCall keepLastN items.reverse []
  dropLeadingFunctionItems newItems.reverse

/-- Whether a sequence starts with a `function_call` / `function_call_output`
item (what step 4 of the truncation contract forbids in the result). -/
def startsWithFunctionItem : List ChatItem → Bool
  | [] => false
  | i :: _ => i.type == ItemType.functionCall || i.type == ItemType.functionCallOutput

/- Concrete items used in the scenario claims. -/

def sysItem : ChatItem :=
  { id := "i1", type := ItemType.message, role := Role.system, content := [ContentPart.text "sys"] }

def userHi : ChatItem :=
  { id := "i2", type := ItemType.message, role := Role.user, content := [ContentPart.text "hi"] }

def asstHello : ChatItem :=
  { id := "i3", type := ItemType.message, role := Role.assistant, content := [ContentPart.text "hello"] }

def fnCallItem : ChatItem :=
  { id := "i4", type := ItemType.functionCall, role := Role.assistant, content := [] }

def fnOutItem : ChatItem :=
  { id := "i5", type := ItemType.functionCallOutput, role := Role.assistant, content := [] }

def userBye : ChatItem :=
  { id := "i6", type := ItemType.message, role := Role.user, content := [ContentPart.text "bye"] }

/-- The scenario history `[sys, user:"hi", asst:"hello", fnCall, fnOut, user:"bye"]`. -/
def hist3 : List ChatItem := [sysItem, userHi, asstHello, fnCallItem, fnOutItem, userBye]

/-- An agent object.  Each of `TriageAgent`, `SupportAgent`, `BillingAgent`
is one instance; its Python class name (`self.__class__.__name__`, used by
`on_enter` for the log line, the presence attribute and the announcement
message) identifies it. -/
structure Agent where
  className : String
deriving DecidableEq, Repr

def triageAgent : Agent := { className := "TriageAgent" }

def supportAgent : Agent := { className := "SupportAgent" }

def billingAgent : Agent := { className := "BillingAgent" }

/-- The registry built in `entrypoint`:
`userdata.personas.update({"triage": ..., "support": ..., "billing": ...})`. -/
def personasInit : List (String × Agent) :=
  [("triage", triageAgent), ("support", supportAgent), ("billing", billingAgent)]

/-- The shared session state: the `UserData` registry and `prev_agent`, the
session's `current_agent`, and every agent's chat context.  Agents are
mutable Python objects shared between the registry and the
current/previous references, so their chat contexts live in one store
keyed by the agent's class name (the three classes are distinct). -/
structure SessionState where
  personas : List (String × Agent)
  currentAgent : Option Agent
  prevAgent : Option Agent
  histories : List (String × List ChatItem)
deriving DecidableEq, Repr

/-- Replace the chat context stored for key `k` (Python dict/attribute
update semantics: overwrite in place, insert when absent). -/
def setHist : List (String × List ChatItem) → String → List ChatItem →
    List (String × List ChatItem)
  | [], k, v => [(k, v)]
  | p :: rest, k, v =>
    if p.1 == k then (k, v) :: rest else p :: setHist rest k v

/-- The chat context of agent `a` in state `s` (`a.chat_ctx.items`). -/
def histLookup (s : SessionState) (a : Agent) : List ChatItem :=
  (List.lookup a.className s.histories).getD []

/-- Function `UserData.summarize`. -/
def summarize : String :=
  "Medical office triage system with video analysis capabilities"

/-- The system announcement appended at the end of `on_enter`
(`chat_ctx.add_message(role="system", content=f"You are the {agent_name}.
{userdata.summarize()}")`).  The framework assigns the new item a fresh
unique id; a synthetic id derived from the agent name stands in for it. -/
def enterSystemMessage (agentName : String) : ChatItem :=
  { id := "enter-" ++ agentName, type := ItemType.message, role := Role.system,
    content := [ContentPart.text ("You are the " ++ agentName ++ ". " ++ summarize)] }

/-- The merge step of `on_enter`: compute `existing_ids` from the incoming
agent's items, drop the carried items whose id is already present, extend.
`existing_ids` is computed once from `base` only — carried items are never
checked against each other. -/
def mergeItems (base carried : List ChatItem) : List ChatItem :=
  let existingIds := base.map ChatItem.id
  base ++ carried.filter (fun i => decide (i.id ∉ existingIds))

/-- Method `BaseAgent.on_enter` as a state transformer.  Returns the new state and
the value the presence attribute is set to
(`set_attributes({"agent": agent_name})` with
`agent_name = self.__class__.__name__`).  When `prev_agent` is set, the
previous agent's items are truncated with `keep_function_call=True` (so
`keep_last_n_messages=6`, `keep_system_message=False` by default), merged
into a copy of the entering agent's context, the announcement is appended,
and `update_chat_ctx` installs the result on the entering agent only. -/
def on_enter (st : SessionState) (self : Agent) : SessionState × String :=
  let base := histLookup st self
  let merged :=
    match st.prevAgent with
    | some prev => mergeItems base (truncate_chat_ctx (histLookup st prev) 6 false true)
    | none => base
  let final := merged ++ [enterSystemMessage self.className]
  ({ st with histories := setHist st.histories self.className final }, self.className)

/-- Failure of a transfer: `userdata.personas[name]` raises `KeyError` for
an absent key — the spec's `UnknownPersonaError`. -/
inductive TransferError
  | unknownPersona
deriving DecidableEq, Repr

/-- Method `BaseAgent._transfer_to_agent`: read `current_agent`, look the target up
in the registry (raising if absent — the assignment to `prev_agent` comes
after the lookup, so a failed lookup leaves the state untouched), set
`prev_agent` to the current agent and return the next agent. -/
def transfer_to_agent (s : SessionState) (name : String) :
    Except TransferError (SessionState × Agent) :=
  let currentAgent := s.currentAgent
  match List.lookup name s.personas with
  | none => Except.error TransferError.unknownPersona
  | some next => Except.ok ({ s with prevAgent := currentAgent }, next)

/-- The observable outcome of a transfer attempt at the tool-call boundary:
the session state afterwards, and either the returned agent or the
propagated error.  On failure nothing was assigned, so the caller still
sees the original state. -/
def transferRun (s : SessionState) (name : String) :
    SessionState × Except TransferError Agent :=
  match transfer_to_agent s name with
  | Except.error e => (s, Except.error e)
  | Except.ok (s', a) => (s', Except.ok a)

/-- Modelled from the spec: the framework installs the agent returned by the
transfer tool as the session's new `current_agent` (spec §4.2 step 2 —
`sessionState.current := sessionState.registry[targetName]`).  The tool
itself (`_transfer_to_agent`, in src) only records `prev_agent` and returns
the next agent; the activation lives in the external framework. -/
def transfer (s : SessionState) (name : String) : Except TransferError SessionState :=
  match transfer_to_agent s name with
  | Except.error e => Except.error e
  | Except.ok (s', next) => Except.ok { s' with currentAgent := some next }

/- Image ingestion (`create_image_handler` / `_handle_image`). -/

/-- The standard base64 alphabet used by `base64.b64encode`. -/
def b64Alphabet : List Char :=
  "ABCDEFGHIJKLMNOPQRSTUVWXYZabcdefghijklmnopqrstuvwxyz0123456789+/".toList

def b64Char (n : Nat) : Char := b64Alphabet.getD n 'A'

/-- Encoder `base64.b64encode` on a byte string (bytes as `Nat`, reduced mod 256):
groups of three bytes become four alphabet characters, with `=` padding for
a final group of one or two bytes. -/
def b64encode : List Nat → List Char
  | b0 :: b1 :: b2 :: rest =>
    let x := b0 % 256 * 65536 + b1 % 256 * 256 + b2 % 256
    b64Char (x / 262144) :: b64Char (x / 4096 % 64) :: b64Char (x / 64 % 64) ::
      b64Char (x % 64) :: b64encode rest
  | [b0, b1] =>
    let x := b0 % 256 * 65536 + b1 % 256 * 256
    [b64Char (x / 262144), b64Char (x / 4096 % 64), b64Char (x / 64 % 64), '=']
  | [b0] =>
    let x := b0 % 256 * 65536
    [b64Char (x / 262144), b64Char (x / 4096 % 64), '=', '=']
  | [] => []

/-- The data URL built in `_handle_image`:
`f"data:image/png;base64,{base64.b64encode(image_bytes).decode('utf-8')}"`. -/
def imageDataUrl (imageBytes : List Nat) : String :=
  "data:image/png;base64," ++ String.mk (b64encode imageBytes)

/-- The user-role chat item appended by `_handle_image`: a single
`ImageContent` part holding the data URL.  The framework assigns the item a
fresh unique id; a fixed synthetic id stands in for it. -/
def imageChatItem (imageBytes : List Nat) : ChatItem :=
  { id := "image-item", type := ItemType.message, role := Role.user,
    content := [ContentPart.image (imageDataUrl imageBytes)] }

/-- The `image_bytes += chunk` accumulation loop over the stream's chunks in
arrival order. -/
def concatChunks (chunks : List (List Nat)) : List Nat :=
  chunks.foldl (fun acc c => acc ++ c) []

/-- Outcome of reading one image stream: either every chunk arrived and the
stream signalled completion, or reading raised somewhere mid-stream (the
chunks received before the error are recorded but never used, since the
exception aborts the accumulation). -/
inductive StreamOutcome
  | complete (chunks : List (List Nat))
  | failMidRead (received : List (List Nat))
deriving DecidableEq, Repr

inductive StreamError
  | readFailed
deriving DecidableEq, Repr

/-- Loop `async for chunk in reader`: on a completed stream it yields
the concatenation of all chunks in arrival order, otherwise the transport
error propagates (into `_handle_image`'s `except` block). -/
def readAllChunks : StreamOutcome → Except StreamError (List Nat)
  | StreamOutcome.complete chunks => Except.ok (concatChunks chunks)
  | StreamOutcome.failMidRead _ => Except.error StreamError.readFailed

/-- The append step of `_handle_image`: copy the current agent's chat
context, `add_message` the image item, `update_chat_ctx` back onto that
same agent. -/
def appendImage (s : SessionState) (a : Agent) (imageBytes : List Nat) : SessionState :=
  { s with histories :=
      setHist s.histories a.className (histLookup s a ++ [imageChatItem imageBytes]) }

/-- Handler `_handle_image` for one stream.  `sess` is the value of the module-level
`_current_session` at the moment the append executes (the global is
dereferenced after the read loop finishes, not at stream-open time).
Returns the session state afterwards and whether an error was caught and
logged.  The whole body sits in `try/except Exception`, so the result type
has no error case: a failure leaves the state untouched and is only
logged. -/
def handle_image (sess : Option SessionState) (stream : StreamOutcome) :
    Option SessionState × Bool :=
  match readAllChunks stream with
  | Except.error _ => (sess, true)
  | Except.ok imageBytes =>
    match sess with
    | none => (sess, false)
    | some s =>
      match s.currentAgent with
      | none => (sess, false)
      | some a => (some (appendImage s a imageBytes), false)

/-- Whether `_current_session and _current_session.current_agent` is truthy. -/
def sessionHasAgent : Option SessionState → Bool
  | none => false
  | some s => s.currentAgent.isSome

/-- The full lifecycle of one ingestion unit as scheduled by
`create_image_handler`: the new task is appended to the module-level
`_image_tasks` list, the handler body runs, and the done callback
(`_image_tasks.remove(t)`) fires on completion — success or failure alike,
since `_handle_image` catches every exception.  Task handles are fresh
objects, modelled as `Nat` ids.  Returns the task list afterwards, the
session state afterwards, and the logged flag. -/
def run_image_unit (tasks : List Nat) (t : Nat) (sess : Option SessionState)
    (stream : StreamOutcome) : List Nat × Option SessionState × Bool :=
  let tasksDuring := tasks ++ [t]
  let result := handle_image sess stream
  (tasksDuring.erase t, result.1, result.2)

/- Concrete states used by witnesses and counterexamples. -/

/-- The session state right after `entrypoint` registers the three personas
and starts the session with the triage agent; every chat context is empty. -/
def st0 : SessionState :=
  { personas := personasInit, currentAgent := some triageAgent, prevAgent := none,
    histories := [("TriageAgent", []), ("SupportAgent", []), ("BillingAgent", [])] }

/-- A state mid-handoff: support is being entered, triage (the previous
agent) holds some history. -/
def stPrev : SessionState :=
  { personas := personasInit, currentAgent := some supportAgent,
    prevAgent := some triageAgent,
    histories := [("TriageAgent", [userHi, asstHello]), ("SupportAgent", [userBye]),
                  ("BillingAgent", [])] }

/-- A state in which the session exists but no agent is current yet. -/
def stNoAgent : SessionState :=
  { personas := personasInit, currentAgent := none, prevAgent := none,
    histories := [("TriageAgent", []), ("SupportAgent", []), ("BillingAgent", [])] }

/-- Pairwise-distinct ids, the `ChatHistory` invariant. -/
def noDupIds (l : List ChatItem) : Prop := (l.map ChatItem.id).Nodup

instance (l : List ChatItem) : Decidable (noDupIds l) := by
  unfold noDupIds; infer_instance

/-- Items with a shared id, used to exercise the merge filter. -/
def dupItemA : ChatItem :=
  { id := "x", type := ItemType.message, role := Role.user, content := [ContentPart.text "a"] }

def dupItemB : ChatItem :=
  { id := "x", type := ItemType.message, role := Role.user, content := [ContentPart.text "b"] }

/- Helper lemmas. -/

theorem scanLoop_length_le (ks kf : Bool) (n : Nat) (l : List ChatItem) :
    ∀ acc : List ChatItem, acc.length < n → (scanLoop ks kf n l acc).length ≤ n := by
  induction l with
  | nil =>
    intro acc h
    simpa [scanLoop] using Nat.le_of_lt h
  | cons i rest ih =>
    intro acc h
    simp only [scanLoop]
    by_cases hv : valid_item ks kf i = true
    · rw [if_pos hv]
      by_cases hb : n ≤ (acc ++ [i]).length
      · rw [if_pos hb]
        simp only [List.length_append, List.length_cons, List.length_nil]
        omega
      · rw [if_neg hb]
        refine ih (acc ++ [i]) ?_
        omega
    · rw [if_neg hv]
      by_cases hb : n ≤ acc.length
      · rw [if_pos hb]
        omega
      · rw [if_neg hb]
        exact ih acc h

theorem scanLoop_zero_length_le (ks kf : Bool) (l : List ChatItem) :
    (scanLoop ks kf 0 l []).length ≤ 1 := by
  cases l with
  | nil => simp [scanLoop]
  | cons i rest =>
    simp only [scanLoop]
    rw [if_pos (Nat.zero_le _)]
    split <;> simp

theorem dropLeadingFunctionItems_length_le (l : List ChatItem) :
    (dropLeadingFunctionItems l).length ≤ l.length := by
  induction l with
  | nil => simp [dropLeadingFunctionItems]
  | cons i rest ih =>
    simp only [dropLeadingFunctionItems]
    split
    · exact le_trans ih (by simp)
    · simp

theorem startsWith_dropLeading_false (l : List ChatItem) :
    startsWithFunctionItem (dropLeadingFunctionItems l) = false := by
  induction l with
  | nil => rfl
  | cons i rest ih =>
    simp only [dropLeadingFunctionItems]
    split
    · exact ih
    · next h =>
      simpa [startsWithFunctionItem] using h

theorem lookup_setHist_self (hs : List (String × List ChatItem)) (k : String)
    (v : List ChatItem) : List.lookup k (setHist hs k v) = some v := by
  induction hs with
  | nil => simp [setHist, List.lookup]
  | cons p rest ih =>
    rcases p with ⟨pk, pv⟩
    by_cases hp : pk = k
    · subst hp
      simp [setHist, List.lookup]
    · have hb : (pk == k) = false := beq_eq_false_iff_ne.mpr hp
      have hb' : (k == pk) = false := beq_eq_false_iff_ne.mpr (Ne.symm hp)
      simp [setHist, hb, List.lookup, hb', ih]

theorem lookup_setHist_ne (hs : List (String × List ChatItem)) (k k' : String)
    (v : List ChatItem) (h : k' ≠ k) :
    List.lookup k' (setHist hs k v) = List.lookup k' hs := by
  induction hs with
  | nil => simp [setHist, List.lookup, beq_eq_false_iff_ne.mpr h]
  | cons p rest ih =>
    rcases p with ⟨pk, pv⟩
    by_cases hp : pk = k
    · subst hp
      simp [setHist, List.lookup, beq_eq_false_iff_ne.mpr h]
    · have hb : (pk == k) = false := beq_eq_false_iff_ne.mpr hp
      by_cases hk : k' = pk
      · subst hk
        simp [setHist, hb, List.lookup]
      · have hk2 : (k' == pk) = false := beq_eq_false_iff_ne.mpr hk
        simp [setHist, hb, List.lookup, hk2, ih]

/- Claim theorems. -/

/-- Claim C1 (confirmed): transfer to a name absent from the registry fails
with `UnknownPersonaError` (the `KeyError` of `userdata.personas[name]`),
the error propagates to the tool-call boundary (`_transfer_to_agent` has no
handler), and the session state — in particular `current_agent` — is
unchanged, since the assignment to `prev_agent` comes after the lookup. -/
theorem transfer_unknown_persona (s : SessionState) (name : String)
    (h : List.lookup name s.personas = none) :
    transferRun s name = (s, Except.error TransferError.unknownPersona) ∧
    (transferRun s name).1.currentAgent = s.currentAgent := by
  have ht : transfer_to_agent s name = Except.error TransferError.unknownPersona := by
    simp [transfer_to_agent, h]
  constructor
  · simp [transferRun, ht]
  · simp [transferRun, ht]

/-- Witness for C1: in the initial state there is no persona named
"frontdesk", and the transfer attempt fails leaving the state intact. -/
theorem transfer_unknown_persona_witness :
    List.lookup "frontdesk" st0.personas = none ∧
    transferRun st0 "frontdesk" = (st0, Except.error TransferError.unknownPersona) ∧
    (transferRun st0 "frontdesk").1.currentAgent = st0.currentAgent :=
  ⟨by decide, transfer_unknown_persona st0 "frontdesk" (by decide)⟩

/-- Claim C2, counterexample: with `keepLastN = 0` the truncation returns
one item, not zero.  The break test `len(new_items) >= keep_last_n_messages`
only runs after the first (possible) append, and `0 <= len` is always true,
so the scan's first valid item survives. -/
theorem truncate_keepZero_cex :
    truncate_chat_ctx [userBye] 0 false true = [userBye] ∧
    ¬ (truncate_chat_ctx [userBye] 0 false true).length ≤ 0 := by
  constructor
  · decide
  · decide

/-- Claim C2 (amended): for every history and every `keepLastN = n`, the
truncation returns at most `max n 1` items — i.e. at most `n` items whenever
`n ≥ 1`, and at most one item when `n = 0` — and the result never starts
with a `function_call` / `function_call_output` item. -/
theorem truncate_length_le_and_not_fn_head (items : List ChatItem) (n : Nat)
    (ks kf : Bool) :
    (truncate_chat_ctx items n ks kf).length ≤ max n 1 ∧
    startsWithFunctionItem (truncate_chat_ctx items n ks kf) = false := by
  constructor
  · have h1 : (scanLoop ks kf n items.reverse []).length ≤ max n 1 := by
      cases n with
      | zero => simpa using scanLoop_zero_length_le ks kf items.reverse
      | succ m =>
        exact le_trans
          (scanLoop_length_le ks kf (m + 1) items.reverse [] (by simp))
          (le_max_left _ _)
    calc (truncate_chat_ctx items n ks kf).length
        ≤ (scanLoop ks kf n items.reverse []).reverse.length :=
          dropLeadingFunctionItems_length_le _
      _ = (scanLoop ks kf n items.reverse []).length := List.length_reverse _
      _ ≤ max n 1 := h1
  · exact startsWith_dropLeading_false _

/-- Claim C3 (confirmed): on the scenario history
`[sys, user:"hi", asst:"hello", fnCall, fnOut, user:"bye"]` with
`keepLastN = 3`, `keepSystemMessages = false`, `keepFunctionItems = true`,
the backward scan collects `bye`, `fnOut`, `fnCall` (the excluded system
message is skipped without being counted), chronological order gives
`[fnCall, fnOut, bye]`, and stripping the leading function items leaves
exactly `[user:"bye"]`. -/
theorem truncate_scenario :
    (scanLoop false true 3 hist3.reverse []).reverse =
      [fnCallItem, fnOutItem, userBye] ∧
    truncate_chat_ctx hist3 3 false true = [userBye] := by
  constructor
  · decide
  · decide

/-- Claim C4, counterexample: the merge filter checks carried ids only
against the base history's ids, never against each other, so a carried
sequence containing two items with the same id (here both with id "x")
produces a history with a duplicate id even from an empty base. -/
theorem mergeItems_dup_cex :
    ¬ noDupIds (mergeItems [] [dupItemA, dupItemB]) := by
  decide

/-- Claim C4 (amended): provided the base history satisfies the
no-duplicate-id invariant and the carried items have pairwise distinct ids,
the merge appends exactly those carried items whose id is not already in
the base, after all of the base's items and in the carried order, and the
result has no duplicate ids. -/
theorem mergeItems_nodup (base carried : List ChatItem)
    (h1 : noDupIds base) (h2 : noDupIds carried) :
    noDupIds (mergeItems base carried) ∧
    mergeItems base carried =
      base ++ carried.filter (fun i => decide (i.id ∉ base.map ChatItem.id)) := by
  refine ⟨?_, rfl⟩
  unfold noDupIds mergeItems at *
  simp only [List.map_append]
  rw [List.nodup_append]
  refine ⟨h1, ?_, ?_⟩
  · exact h2.sublist ((List.filter_sublist _).map ChatItem.id)
  · intro x hxbase hxfilter
    rcases List.mem_map.mp hxfilter with ⟨i, hif, rfl⟩
    rcases List.mem_filter.mp hif with ⟨_, hdec⟩
    exact (of_decide_eq_true hdec) hxbase

/-- Witness for C4: merging `[userBye, userHi]` into `[userHi]` keeps the
ids unique (the duplicate of `userHi` is filtered out). -/
theorem mergeItems_nodup_witness :
    noDupIds (mergeItems [userHi] [userBye, userHi]) ∧
    mergeItems [userHi] [userBye, userHi] =
      [userHi] ++ [userBye, userHi].filter
        (fun i => decide (i.id ∉ [userHi].map ChatItem.id)) :=
  mergeItems_nodup [userHi] [userBye, userHi] (by decide) (by decide)

/-- Claim C5 (confirmed; the activation step is modelled from the spec):
transfer to a registered name sets `prev_agent` to the agent that was
current immediately before and makes the registered agent of that name the
session's current agent. -/
theorem transfer_known_persona (s : SessionState) (name : String) (p : Agent)
    (h : List.lookup name s.personas = some p) :
    transfer s name =
      Except.ok { s with prevAgent := s.currentAgent, currentAgent := some p } := by
  simp [transfer, transfer_to_agent, h]

/-- Witness for C5: transferring from the initial state to "support". -/
theorem transfer_known_persona_witness :
    List.lookup "support" st0.personas = some supportAgent ∧
    transfer st0 "support" =
      Except.ok { st0 with prevAgent := st0.currentAgent,
                           currentAgent := some supportAgent } :=
  ⟨by decide, transfer_known_persona st0 "support" supportAgent (by decide)⟩

/-- Claim C6, counterexample: entering the persona registered under
"triage" sets the presence attribute to its class name "TriageAgent", not
to the registry key "triage" — the attribute value differs from the name
under which the persona is registered. -/
theorem on_enter_presence_cex :
    List.lookup "triage" st0.personas = some triageAgent ∧
    (on_enter st0 triageAgent).2 ≠ "triage" := by
  constructor
  · decide
  · decide

/-- Claim C6 (amended): on entering a persona the session-visible presence
attribute `{"agent": ...}` is set to the persona's class name
(`self.__class__.__name__`), which identifies the persona but is not the
key under which it is registered in the registry. -/
theorem on_enter_presence_classname (st : SessionState) (name : String) (a : Agent)
    (_h : List.lookup name st.personas = some a) :
    (on_enter st a).2 = a.className := rfl

/-- Witness for C6 (amended): entering the "support" persona sets the
attribute to its class name. -/
theorem on_enter_presence_classname_witness :
    List.lookup "support" st0.personas = some supportAgent ∧
    (on_enter st0 supportAgent).2 = supportAgent.className :=
  ⟨by decide, on_enter_presence_classname st0 "support" supportAgent (by decide)⟩

/-- Claim C9 (confirmed): the truncation is pure — `on_enter` reads the
previous agent's items, builds a fresh list, and installs the result only
on the entering agent — so a handoff leaves every other agent's history,
in particular the outgoing (previous) persona's, exactly as it was, and
the entering persona's history is only ever extended. -/
theorem on_enter_frame (st : SessionState) (self other : Agent)
    (h : other.className ≠ self.className) :
    histLookup (on_enter st self).1 other = histLookup st other ∧
    ∃ ext, histLookup (on_enter st self).1 self = histLookup st self ++ ext := by
  constructor
  · unfold on_enter histLookup
    simp only
    rw [lookup_setHist_ne _ _ _ _ h]
  · unfold on_enter histLookup
    simp only
    rw [lookup_setHist_self]
    cases hp : st.prevAgent with
    | none =>
      exact ⟨[enterSystemMessage self.className], by simp⟩
    | some prev =>
      refine ⟨(truncate_chat_ctx (histLookup st prev) 6 false true).filter
        (fun i => decide (i.id ∉ (histLookup st self).map ChatItem.id)) ++
        [enterSystemMessage self.className], ?_⟩
      simp [mergeItems, histLookup]

/-- Witness for C9: entering support after a handoff from triage leaves
the triage history untouched and only extends the support history. -/
theorem on_enter_frame_witness :
    triageAgent.className ≠ supportAgent.className ∧
    (histLookup (on_enter stPrev supportAgent).1 triageAgent =
        histLookup stPrev triageAgent ∧
      ∃ ext, histLookup (on_enter stPrev supportAgent).1 supportAgent =
        histLookup stPrev supportAgent ++ ext) :=
  ⟨by decide, on_enter_frame stPrev supportAgent triageAgent (by decide)⟩

/-- Claim C7, counterexample: a stream that completes successfully while no
agent is current appends nothing at all — the state is returned unchanged —
contradicting the claim that every successfully completed stream results in
exactly one appended item. -/
theorem handle_image_no_append_cex :
    handle_image (some stNoAgent) (StreamOutcome.complete [[1]]) =
      (some stNoAgent, false) ∧
    stNoAgent.currentAgent = none := by
  constructor
  · decide
  · decide

/-- Claim C7 (amended): for every image stream that completes successfully
while a current agent is set at the moment of the append (the module-level
session is dereferenced only after the read loop, so the target persona is
resolved at append time), the handler appends exactly one user-role chat
item, whose single content part is the base64 image data URL of the
concatenation of all chunks in arrival order, to that current agent's
history, and leaves every other agent's history unchanged. -/
theorem handle_image_appends_current (s : SessionState) (a : Agent)
    (chunks : List (List Nat)) (h : s.currentAgent = some a) :
    handle_image (some s) (StreamOutcome.complete chunks) =
      (some (appendImage s a (concatChunks chunks)), false) ∧
    histLookup (appendImage s a (concatChunks chunks)) a =
      histLookup s a ++ [imageChatItem (concatChunks chunks)] ∧
    ∀ b : Agent, b.className ≠ a.className →
      histLookup (appendImage s a (concatChunks chunks)) b = histLookup s b := by
  refine ⟨?_, ?_, ?_⟩
  · simp [handle_image, readAllChunks, h]
  · unfold appendImage histLookup
    simp only
    rw [lookup_setHist_self]
    rfl
  · intro b hb
    unfold appendImage histLookup
    simp only
    rw [lookup_setHist_ne _ _ _ _ hb]

/-- Witness for C7 (amended): a two-chunk stream arriving while triage is
current appends one image item to triage's history and leaves support's
untouched. -/
theorem handle_image_appends_current_witness :
    st0.currentAgent = some triageAgent ∧
    handle_image (some st0) (StreamOutcome.complete [[1, 2], [3]]) =
      (some (appendImage st0 triageAgent (concatChunks [[1, 2], [3]])), false) ∧
    supportAgent.className ≠ triageAgent.className ∧
    histLookup (appendImage st0 triageAgent (concatChunks [[1, 2], [3]])) supportAgent =
      histLookup st0 supportAgent :=
  ⟨rfl, (handle_image_appends_current st0 triageAgent [[1, 2], [3]] rfl).1, by decide,
    (handle_image_appends_current st0 triageAgent [[1, 2], [3]] rfl).2.2
      supportAgent (by decide)⟩

/-- Claim C8 (confirmed): when reading the stream fails mid-read, the
exception is caught by `_handle_image`'s handler and logged, no item is
appended to any history, nothing propagates out of the unit (the result
type of the model has no error case, mirroring the blanket `except`), and
the done callback still removes the task handle from the pending-task
list. -/
theorem run_image_unit_failure (tasks : List Nat) (t : Nat)
    (sess : Option SessionState) (received : List (List Nat)) (h : t ∉ tasks) :
    run_image_unit tasks t sess (StreamOutcome.failMidRead received) =
      (tasks, sess, true) := by
  unfold run_image_unit handle_image readAllChunks
  simp only
  rw [List.erase_append_right _ h, List.erase_cons_head, List.append_nil]

/-- Witness for C8: a fresh task 1 ingesting a failing stream leaves the
task list, the session state, and every history as they were, with the
error logged. -/
theorem run_image_unit_failure_witness :
    (1 : Nat) ∉ [0] ∧
    run_image_unit [0] 1 (some st0) (StreamOutcome.failMidRead [[9]]) =
      ([0], some st0, true) :=
  ⟨by decide, run_image_unit_failure [0] 1 (some st0) [[9]] (by decide)⟩

/-- Claim C10 (confirmed): when a stream completes while no current session
or no current agent is set (`if _current_session and
_current_session.current_agent:` is falsy), the unit terminates normally:
no item is appended anywhere, no error is raised or logged. -/
theorem handle_image_no_session (sess : Option SessionState)
    (chunks : List (List Nat)) (h : sessionHasAgent sess = false) :
    handle_image sess (StreamOutcome.complete chunks) = (sess, false) := by
  cases sess with
  | none => simp [handle_image, readAllChunks]
  | some s =>
    cases hc : s.currentAgent with
    | none => simp [handle_image, readAllChunks, hc]
    | some a =>
      rw [sessionHasAgent, hc] at h
      simp at h

/-- Witness for C10: a stream completing before the session is started
(here modelled by a session with no current agent) changes nothing. -/
theorem handle_image_no_session_witness :
    sessionHasAgent (some stNoAgent) = false ∧
    handle_image (some stNoAgent) (StreamOutcome.complete [[1], [2]]) =
      (some stNoAgent, false) :=
  ⟨rfl, handle_image_no_session (some stNoAgent) [[1], [2]] rfl⟩

end VisionDemo
